import Mathlib

/-!
Verification of the package / package-revision data model and accessor layer of
the crossplane package manager slice, against its natural-language specification.

The Go source under apis/pkg/v1/interfaces.go is shallowly embedded below:
Go structs become Lean structures, pointer-valued fields become Option, slices
become List, map[string]string becomes an association list, int64 becomes Int
(the accessors only move values around, so no overflow arithmetic occurs), and
each pointer-receiver setter becomes a pure state-passing function returning the
updated record.
-/

set_option maxHeartbeats 1000000

namespace Crossplane

/-- corev1.LocalObjectReference: a reference by name to an object in the same
namespace. -/
structure LocalObjectReference where
  name : String
  deriving DecidableEq, Repr

/-- ControllerConfigReference references a ControllerConfig resource (CRD:
controllerConfigRef, required field name). -/
structure ControllerConfigReference where
  name : String
  deriving DecidableEq, Repr

/-- ControllerReference references the controller workload (e.g. Deployment)
responsible for a revision's installed objects (CRD: status.controllerRef). -/
structure ControllerReference where
  name : String
  deriving DecidableEq, Repr

/-- xpv1.TypedReference: refers to an object by APIVersion, Kind, and Name
(CRD: status.objectRefs items). -/
structure TypedReference where
  apiVersion : String
  kind : String
  name : String
  uid : String
  deriving DecidableEq, Repr

/-- A status condition (CRD: status.conditions items). -/
structure Condition where
  type : String
  status : String
  reason : String
  message : String
  lastTransitionTime : String
  deriving DecidableEq, Repr

/-- rbacv1.PolicyRule (CRD: status.permissionRequests items). -/
structure PolicyRule where
  apiGroups : List String
  nonResourceURLs : List String
  resourceNames : List String
  resources : List String
  verbs : List String
  deriving DecidableEq, Repr

/-- RevisionActivationPolicy is a named string type in the source
(type RevisionActivationPolicy string). -/
abbrev RevisionActivationPolicy := String

/-- AutomaticActivation indicates that a package should automatically activate
package revisions. -/
def AutomaticActivation : RevisionActivationPolicy := "Automatic"

/-- ManualActivation indicates that a user will manually activate package
revisions. -/
def ManualActivation : RevisionActivationPolicy := "Manual"

/-- corev1.PullPolicy is a named string type. -/
abbrev PullPolicy := String

/-- PackageRevisionDesiredState is a named string type; the CRD schema for
spec.desiredState declares type string with no enum restriction. -/
abbrev PackageRevisionDesiredState := String

/-- The spec fields of a Package (Provider / Configuration), as referenced by
the accessors in interfaces.go. -/
structure PackageSpec where
  package : String
  revisionActivationPolicy : Option RevisionActivationPolicy
  packagePullSecrets : List LocalObjectReference
  packagePullPolicy : Option PullPolicy
  revisionHistoryLimit : Option Int
  ignoreCrossplaneConstraints : Option Bool
  controllerConfigReference : Option ControllerConfigReference
  skipDependencyResolution : Option Bool
  commonLabels : List (String × String)
  deriving DecidableEq, Repr

/-- The status fields of a Package, as referenced by the accessors in
interfaces.go. -/
structure PackageStatus where
  conditions : List Condition
  currentRevision : String
  currentIdentifier : String
  deriving DecidableEq, Repr

/-- The Provider package variant. -/
structure Provider where
  spec : PackageSpec
  status : PackageStatus
  deriving DecidableEq, Repr

/-- The Configuration package variant. -/
structure Configuration where
  spec : PackageSpec
  status : PackageStatus
  deriving DecidableEq, Repr

/-- RefNames converts a slice of LocalObjectReferences to a slice of strings
(interfaces.go: an output slice of the same length, element i set to
refs[i].Name). -/
def RefNames (refs : List LocalObjectReference) : List String :=
  refs.map (fun r => r.name)

/-- GetSource of this Provider. -/
def Provider.GetSource (p : Provider) : String :=
  p.spec.package

/-- SetSource of this Provider. -/
def Provider.SetSource (p : Provider) (s : String) : Provider :=
  { p with spec := { p.spec with package := s } }

/-- GetActivationPolicy of this Provider. -/
def Provider.GetActivationPolicy (p : Provider) : Option RevisionActivationPolicy :=
  p.spec.revisionActivationPolicy

/-- SetActivationPolicy of this Provider. -/
def Provider.SetActivationPolicy (p : Provider) (a : Option RevisionActivationPolicy) : Provider :=
  { p with spec := { p.spec with revisionActivationPolicy := a } }

/-- GetPackagePullSecrets of this Provider. -/
def Provider.GetPackagePullSecrets (p : Provider) : List LocalObjectReference :=
  p.spec.packagePullSecrets

/-- SetPackagePullSecrets of this Provider. -/
def Provider.SetPackagePullSecrets (p : Provider) (s : List LocalObjectReference) : Provider :=
  { p with spec := { p.spec with packagePullSecrets := s } }

/-- GetPackagePullPolicy of this Provider. -/
def Provider.GetPackagePullPolicy (p : Provider) : Option PullPolicy :=
  p.spec.packagePullPolicy

/-- SetPackagePullPolicy of this Provider. -/
def Provider.SetPackagePullPolicy (p : Provider) (i : Option PullPolicy) : Provider :=
  { p with spec := { p.spec with packagePullPolicy := i } }

/-- GetRevisionHistoryLimit of this Provider. -/
def Provider.GetRevisionHistoryLimit (p : Provider) : Option Int :=
  p.spec.revisionHistoryLimit

/-- SetRevisionHistoryLimit of this Provider. -/
def Provider.SetRevisionHistoryLimit (p : Provider) (l : Option Int) : Provider :=
  { p with spec := { p.spec with revisionHistoryLimit := l } }

/-- GetIgnoreCrossplaneConstraints of this Provider. -/
def Provider.GetIgnoreCrossplaneConstraints (p : Provider) : Option Bool :=
  p.spec.ignoreCrossplaneConstraints

/-- SetIgnoreCrossplaneConstraints of this Provider. -/
def Provider.SetIgnoreCrossplaneConstraints (p : Provider) (b : Option Bool) : Provider :=
  { p with spec := { p.spec with ignoreCrossplaneConstraints := b } }

/-- GetControllerConfigRef of this Provider. -/
def Provider.GetControllerConfigRef (p : Provider) : Option ControllerConfigReference :=
  p.spec.controllerConfigReference

/-- SetControllerConfigRef of this Provider. -/
def Provider.SetControllerConfigRef (p : Provider) (r : Option ControllerConfigReference) : Provider :=
  { p with spec := { p.spec with controllerConfigReference := r } }

/-- GetCurrentRevision of this Provider. -/
def Provider.GetCurrentRevision (p : Provider) : String :=
  p.status.currentRevision

/-- SetCurrentRevision of this Provider. -/
def Provider.SetCurrentRevision (p : Provider) (s : String) : Provider :=
  { p with status := { p.status with currentRevision := s } }

/-- GetSkipDependencyResolution of this Provider. -/
def Provider.GetSkipDependencyResolution (p : Provider) : Option Bool :=
  p.spec.skipDependencyResolution

/-- SetSkipDependencyResolution of this Provider. -/
def Provider.SetSkipDependencyResolution (p : Provider) (b : Option Bool) : Provider :=
  { p with spec := { p.spec with skipDependencyResolution := b } }

/-- GetCurrentIdentifier of this Provider. -/
def Provider.GetCurrentIdentifier (p : Provider) : String :=
  p.status.currentIdentifier

/-- SetCurrentIdentifier of this Provider. -/
def Provider.SetCurrentIdentifier (p : Provider) (s : String) : Provider :=
  { p with status := { p.status with currentIdentifier := s } }

/-- GetCommonLabels of this Provider. -/
def Provider.GetCommonLabels (p : Provider) : List (String × String) :=
  p.spec.commonLabels

/-- SetCommonLabels of this Provider. -/
def Provider.SetCommonLabels (p : Provider) (l : List (String × String)) : Provider :=
  { p with spec := { p.spec with commonLabels := l } }

/-- GetSource of this Configuration. -/
def Configuration.GetSource (p : Configuration) : String :=
  p.spec.package

/-- SetSource of this Configuration. -/
def Configuration.SetSource (p : Configuration) (s : String) : Configuration :=
  { p with spec := { p.spec with package := s } }

/-- GetActivationPolicy of this Configuration. -/
def Configuration.GetActivationPolicy (p : Configuration) : Option RevisionActivationPolicy :=
  p.spec.revisionActivationPolicy

/-- SetActivationPolicy of this Configuration. -/
def Configuration.SetActivationPolicy (p : Configuration) (a : Option RevisionActivationPolicy) : Configuration :=
  { p with spec := { p.spec with revisionActivationPolicy := a } }

/-- GetPackagePullSecrets of this Configuration. -/
def Configuration.GetPackagePullSecrets (p : Configuration) : List LocalObjectReference :=
  p.spec.packagePullSecrets

/-- SetPackagePullSecrets of this Configuration. -/
def Configuration.SetPackagePullSecrets (p : Configuration) (s : List LocalObjectReference) : Configuration :=
  { p with spec := { p.spec with packagePullSecrets := s } }

/-- GetPackagePullPolicy of this Configuration. -/
def Configuration.GetPackagePullPolicy (p : Configuration) : Option PullPolicy :=
  p.spec.packagePullPolicy

/-- SetPackagePullPolicy of this Configuration. -/
def Configuration.SetPackagePullPolicy (p : Configuration) (i : Option PullPolicy) : Configuration :=
  { p with spec := { p.spec with packagePullPolicy := i } }

/-- GetRevisionHistoryLimit of this Configuration. -/
def Configuration.GetRevisionHistoryLimit (p : Configuration) : Option Int :=
  p.spec.revisionHistoryLimit

/-- SetRevisionHistoryLimit of this Configuration. -/
def Configuration.SetRevisionHistoryLimit (p : Configuration) (l : Option Int) : Configuration :=
  { p with spec := { p.spec with revisionHistoryLimit := l } }

/-- GetIgnoreCrossplaneConstraints of this Configuration. -/
def Configuration.GetIgnoreCrossplaneConstraints (p : Configuration) : Option Bool :=
  p.spec.ignoreCrossplaneConstraints

/-- SetIgnoreCrossplaneConstraints of this Configuration. -/
def Configuration.SetIgnoreCrossplaneConstraints (p : Configuration) (b : Option Bool) : Configuration :=
  { p with spec := { p.spec with ignoreCrossplaneConstraints := b } }

/-- GetControllerConfigRef of this Configuration: the source returns nil
unconditionally. -/
def Configuration.GetControllerConfigRef (_ : Configuration) : Option ControllerConfigReference :=
  none

/-- SetControllerConfigRef of this Configuration: the source ignores its
argument and mutates nothing. -/
def Configuration.SetControllerConfigRef (p : Configuration) (_ : Option ControllerConfigReference) : Configuration :=
  p

/-- GetCurrentRevision of this Configuration. -/
def Configuration.GetCurrentRevision (p : Configuration) : String :=
  p.status.currentRevision

/-- SetCurrentRevision of this Configuration. -/
def Configuration.SetCurrentRevision (p : Configuration) (s : String) : Configuration :=
  { p with status := { p.status with currentRevision := s } }

/-- GetSkipDependencyResolution of this Configuration. -/
def Configuration.GetSkipDependencyResolution (p : Configuration) : Option Bool :=
  p.spec.skipDependencyResolution

/-- SetSkipDependencyResolution of this Configuration. -/
def Configuration.SetSkipDependencyResolution (p : Configuration) (b : Option Bool) : Configuration :=
  { p with spec := { p.spec with skipDependencyResolution := b } }

/-- GetCurrentIdentifier of this Configuration. -/
def Configuration.GetCurrentIdentifier (p : Configuration) : String :=
  p.status.currentIdentifier

/-- SetCurrentIdentifier of this Configuration. -/
def Configuration.SetCurrentIdentifier (p : Configuration) (s : String) : Configuration :=
  { p with status := { p.status with currentIdentifier := s } }

/-- GetCommonLabels of this Configuration. -/
def Configuration.GetCommonLabels (p : Configuration) : List (String × String) :=
  p.spec.commonLabels

/-- SetCommonLabels of this Configuration. -/
def Configuration.SetCommonLabels (p : Configuration) (l : List (String × String)) : Configuration :=
  { p with spec := { p.spec with commonLabels := l } }

/-- The spec fields of a PackageRevision (ProviderRevision /
ConfigurationRevision), as referenced by the accessors in interfaces.go and
laid out by the CRD schema (spec.image is the JSON name of the Package
field). -/
structure PackageRevisionSpec where
  package : String
  packagePullSecrets : List LocalObjectReference
  packagePullPolicy : Option PullPolicy
  desiredState : PackageRevisionDesiredState
  ignoreCrossplaneConstraints : Option Bool
  controllerConfigReference : Option ControllerConfigReference
  revision : Int
  skipDependencyResolution : Option Bool
  webhookTLSSecretName : Option String
  essTLSSecretName : Option String
  tlsServerSecretName : Option String
  tlsClientSecretName : Option String
  commonLabels : List (String × String)
  deriving DecidableEq, Repr

/-- The status fields of a PackageRevision, as referenced by the accessors in
interfaces.go and laid out by the CRD schema. -/
structure PackageRevisionStatus where
  conditions : List Condition
  objectRefs : List TypedReference
  controllerRef : ControllerReference
  foundDependencies : Int
  installedDependencies : Int
  invalidDependencies : Int
  permissionRequests : List PolicyRule
  deriving DecidableEq, Repr

/-- The ProviderRevision variant. -/
structure ProviderRevision where
  spec : PackageRevisionSpec
  status : PackageRevisionStatus
  deriving DecidableEq, Repr

/-- The ConfigurationRevision variant. -/
structure ConfigurationRevision where
  spec : PackageRevisionSpec
  status : PackageRevisionStatus
  deriving DecidableEq, Repr

/-- GetObjects of this ProviderRevision. -/
def ProviderRevision.GetObjects (p : ProviderRevision) : List TypedReference :=
  p.status.objectRefs

/-- SetObjects of this ProviderRevision. -/
def ProviderRevision.SetObjects (p : ProviderRevision) (c : List TypedReference) : ProviderRevision :=
  { p with status := { p.status with objectRefs := c } }

/-- GetControllerReference of this ProviderRevision. -/
def ProviderRevision.GetControllerReference (p : ProviderRevision) : ControllerReference :=
  p.status.controllerRef

/-- SetControllerReference of this ProviderRevision. -/
def ProviderRevision.SetControllerReference (p : ProviderRevision) (c : ControllerReference) : ProviderRevision :=
  { p with status := { p.status with controllerRef := c } }

/-- GetSource of this ProviderRevision. -/
def ProviderRevision.GetSource (p : ProviderRevision) : String :=
  p.spec.package

/-- SetSource of this ProviderRevision. -/
def ProviderRevision.SetSource (p : ProviderRevision) (s : String) : ProviderRevision :=
  { p with spec := { p.spec with package := s } }

/-- GetPackagePullSecrets of this ProviderRevision. -/
def ProviderRevision.GetPackagePullSecrets (p : ProviderRevision) : List LocalObjectReference :=
  p.spec.packagePullSecrets

/-- SetPackagePullSecrets of this ProviderRevision. -/
def ProviderRevision.SetPackagePullSecrets (p : ProviderRevision) (s : List LocalObjectReference) : ProviderRevision :=
  { p with spec := { p.spec with packagePullSecrets := s } }

/-- GetPackagePullPolicy of this ProviderRevision. -/
def ProviderRevision.GetPackagePullPolicy (p : ProviderRevision) : Option PullPolicy :=
  p.spec.packagePullPolicy

/-- SetPackagePullPolicy of this ProviderRevision. -/
def ProviderRevision.SetPackagePullPolicy (p : ProviderRevision) (i : Option PullPolicy) : ProviderRevision :=
  { p with spec := { p.spec with packagePullPolicy := i } }

/-- GetDesiredState of this ProviderRevision. -/
def ProviderRevision.GetDesiredState (p : ProviderRevision) : PackageRevisionDesiredState :=
  p.spec.desiredState

/-- SetDesiredState of this ProviderRevision: stores any string value
unvalidated. -/
def ProviderRevision.SetDesiredState (p : ProviderRevision) (s : PackageRevisionDesiredState) : ProviderRevision :=
  { p with spec := { p.spec with desiredState := s } }

/-- GetRevision of this ProviderRevision. -/
def ProviderRevision.GetRevision (p : ProviderRevision) : Int :=
  p.spec.revision

/-- SetRevision of this ProviderRevision. -/
def ProviderRevision.SetRevision (p : ProviderRevision) (r : Int) : ProviderRevision :=
  { p with spec := { p.spec with revision := r } }

/-- GetDependencyStatus of this ProviderRevision: returns the triple
(found, installed, invalid) from the status fields. -/
def ProviderRevision.GetDependencyStatus (p : ProviderRevision) : Int × Int × Int :=
  (p.status.foundDependencies, p.status.installedDependencies, p.status.invalidDependencies)

/-- SetDependencyStatus of this ProviderRevision: stores the three given
counters in the status fields, performing no validation. -/
def ProviderRevision.SetDependencyStatus (p : ProviderRevision) (found installed invalid : Int) : ProviderRevision :=
  { p with status := { p.status with
      foundDependencies := found
      installedDependencies := installed
      invalidDependencies := invalid } }

/-- GetIgnoreCrossplaneConstraints of this ProviderRevision. -/
def ProviderRevision.GetIgnoreCrossplaneConstraints (p : ProviderRevision) : Option Bool :=
  p.spec.ignoreCrossplaneConstraints

/-- SetIgnoreCrossplaneConstraints of this ProviderRevision. -/
def ProviderRevision.SetIgnoreCrossplaneConstraints (p : ProviderRevision) (b : Option Bool) : ProviderRevision :=
  { p with spec := { p.spec with ignoreCrossplaneConstraints := b } }

/-- GetControllerConfigRef of this ProviderRevision. -/
def ProviderRevision.GetControllerConfigRef (p : ProviderRevision) : Option ControllerConfigReference :=
  p.spec.controllerConfigReference

/-- SetControllerConfigRef of this ProviderRevision. -/
def ProviderRevision.SetControllerConfigRef (p : ProviderRevision) (r : Option ControllerConfigReference) : ProviderRevision :=
  { p with spec := { p.spec with controllerConfigReference := r } }

/-- GetSkipDependencyResolution of this ProviderRevision. -/
def ProviderRevision.GetSkipDependencyResolution (p : ProviderRevision) : Option Bool :=
  p.spec.skipDependencyResolution

/-- SetSkipDependencyResolution of this ProviderRevision. -/
def ProviderRevision.SetSkipDependencyResolution (p : ProviderRevision) (b : Option Bool) : ProviderRevision :=
  { p with spec := { p.spec with skipDependencyResolution := b } }

/-- GetWebhookTLSSecretName of this ProviderRevision. -/
def ProviderRevision.GetWebhookTLSSecretName (p : ProviderRevision) : Option String :=
  p.spec.webhookTLSSecretName

/-- SetWebhookTLSSecretName of this ProviderRevision. -/
def ProviderRevision.SetWebhookTLSSecretName (p : ProviderRevision) (b : Option String) : ProviderRevision :=
  { p with spec := { p.spec with webhookTLSSecretName := b } }

/-- GetESSTLSSecretName of this ProviderRevision. -/
def ProviderRevision.GetESSTLSSecretName (p : ProviderRevision) : Option String :=
  p.spec.essTLSSecretName

/-- SetESSTLSSecretName of this ProviderRevision. -/
def ProviderRevision.SetESSTLSSecretName (p : ProviderRevision) (s : Option String) : ProviderRevision :=
  { p with spec := { p.spec with essTLSSecretName := s } }

/-- GetTLSServerSecretName of this ProviderRevision. -/
def ProviderRevision.GetTLSServerSecretName (p : ProviderRevision) : Option String :=
  p.spec.tlsServerSecretName

/-- SetTLSServerSecretName of this ProviderRevision. -/
def ProviderRevision.SetTLSServerSecretName (p : ProviderRevision) (s : Option String) : ProviderRevision :=
  { p with spec := { p.spec with tlsServerSecretName := s } }

/-- GetTLSClientSecretName of this ProviderRevision. -/
def ProviderRevision.GetTLSClientSecretName (p : ProviderRevision) : Option String :=
  p.spec.tlsClientSecretName

/-- SetTLSClientSecretName of this ProviderRevision. -/
def ProviderRevision.SetTLSClientSecretName (p : ProviderRevision) (s : Option String) : ProviderRevision :=
  { p with spec := { p.spec with tlsClientSecretName := s } }

/-- GetCommonLabels of this ProviderRevision. -/
def ProviderRevision.GetCommonLabels (p : ProviderRevision) : List (String × String) :=
  p.spec.commonLabels

/-- SetCommonLabels of this ProviderRevision. -/
def ProviderRevision.SetCommonLabels (p : ProviderRevision) (l : List (String × String)) : ProviderRevision :=
  { p with spec := { p.spec with commonLabels := l } }

/-- GetObjects of this ConfigurationRevision. -/
def ConfigurationRevision.GetObjects (p : ConfigurationRevision) : List TypedReference :=
  p.status.objectRefs

/-- SetObjects of this ConfigurationRevision. -/
def ConfigurationRevision.SetObjects (p : ConfigurationRevision) (c : List TypedReference) : ConfigurationRevision :=
  { p with status := { p.status with objectRefs := c } }

/-- GetControllerReference of this ConfigurationRevision. -/
def ConfigurationRevision.GetControllerReference (p : ConfigurationRevision) : ControllerReference :=
  p.status.controllerRef

/-- SetControllerReference of this ConfigurationRevision. -/
def ConfigurationRevision.SetControllerReference (p : ConfigurationRevision) (c : ControllerReference) : ConfigurationRevision :=
  { p with status := { p.status with controllerRef := c } }

/-- GetSource of this ConfigurationRevision. -/
def ConfigurationRevision.GetSource (p : ConfigurationRevision) : String :=
  p.spec.package

/-- SetSource of this ConfigurationRevision. -/
def ConfigurationRevision.SetSource (p : ConfigurationRevision) (s : String) : ConfigurationRevision :=
  { p with spec := { p.spec with package := s } }

/-- GetPackagePullSecrets of this ConfigurationRevision. -/
def ConfigurationRevision.GetPackagePullSecrets (p : ConfigurationRevision) : List LocalObjectReference :=
  p.spec.packagePullSecrets

/-- SetPackagePullSecrets of this ConfigurationRevision. -/
def ConfigurationRevision.SetPackagePullSecrets (p : ConfigurationRevision) (s : List LocalObjectReference) : ConfigurationRevision :=
  { p with spec := { p.spec with packagePullSecrets := s } }

/-- GetPackagePullPolicy of this ConfigurationRevision. -/
def ConfigurationRevision.GetPackagePullPolicy (p : ConfigurationRevision) : Option PullPolicy :=
  p.spec.packagePullPolicy

/-- SetPackagePullPolicy of this ConfigurationRevision. -/
def ConfigurationRevision.SetPackagePullPolicy (p : ConfigurationRevision) (i : Option PullPolicy) : ConfigurationRevision :=
  { p with spec := { p.spec with packagePullPolicy := i } }

/-- GetDesiredState of this ConfigurationRevision. -/
def ConfigurationRevision.GetDesiredState (p : ConfigurationRevision) : PackageRevisionDesiredState :=
  p.spec.desiredState

/-- SetDesiredState of this ConfigurationRevision: stores any string value
unvalidated. -/
def ConfigurationRevision.SetDesiredState (p : ConfigurationRevision) (s : PackageRevisionDesiredState) : ConfigurationRevision :=
  { p with spec := { p.spec with desiredState := s } }

/-- GetRevision of this ConfigurationRevision. -/
def ConfigurationRevision.GetRevision (p : ConfigurationRevision) : Int :=
  p.spec.revision

/-- SetRevision of this ConfigurationRevision. -/
def ConfigurationRevision.SetRevision (p : ConfigurationRevision) (r : Int) : ConfigurationRevision :=
  { p with spec := { p.spec with revision := r } }

/-- GetDependencyStatus of this ConfigurationRevision. -/
def ConfigurationRevision.GetDependencyStatus (p : ConfigurationRevision) : Int × Int × Int :=
  (p.status.foundDependencies, p.status.installedDependencies, p.status.invalidDependencies)

/-- SetDependencyStatus of this ConfigurationRevision: stores the three given
counters in the status fields, performing no validation. -/
def ConfigurationRevision.SetDependencyStatus (p : ConfigurationRevision) (found installed invalid : Int) : ConfigurationRevision :=
  { p with status := { p.status with
      foundDependencies := found
      installedDependencies := installed
      invalidDependencies := invalid } }

/-- GetIgnoreCrossplaneConstraints of this ConfigurationRevision. -/
def ConfigurationRevision.GetIgnoreCrossplaneConstraints (p : ConfigurationRevision) : Option Bool :=
  p.spec.ignoreCrossplaneConstraints

/-- SetIgnoreCrossplaneConstraints of this ConfigurationRevision. -/
def ConfigurationRevision.SetIgnoreCrossplaneConstraints (p : ConfigurationRevision) (b : Option Bool) : ConfigurationRevision :=
  { p with spec := { p.spec with ignoreCrossplaneConstraints := b } }

/-- GetControllerConfigRef of this ConfigurationRevision. -/
def ConfigurationRevision.GetControllerConfigRef (p : ConfigurationRevision) : Option ControllerConfigReference :=
  p.spec.controllerConfigReference

/-- SetControllerConfigRef of this ConfigurationRevision. -/
def ConfigurationRevision.SetControllerConfigRef (p : ConfigurationRevision) (r : Option ControllerConfigReference) : ConfigurationRevision :=
  { p with spec := { p.spec with controllerConfigReference := r } }

/-- GetSkipDependencyResolution of this ConfigurationRevision. -/
def ConfigurationRevision.GetSkipDependencyResolution (p : ConfigurationRevision) : Option Bool :=
  p.spec.skipDependencyResolution

/-- SetSkipDependencyResolution of this ConfigurationRevision. -/
def ConfigurationRevision.SetSkipDependencyResolution (p : ConfigurationRevision) (b : Option Bool) : ConfigurationRevision :=
  { p with spec := { p.spec with skipDependencyResolution := b } }

/-- GetWebhookTLSSecretName of this ConfigurationRevision. -/
def ConfigurationRevision.GetWebhookTLSSecretName (p : ConfigurationRevision) : Option String :=
  p.spec.webhookTLSSecretName

/-- SetWebhookTLSSecretName of this ConfigurationRevision. -/
def ConfigurationRevision.SetWebhookTLSSecretName (p : ConfigurationRevision) (b : Option String) : ConfigurationRevision :=
  { p with spec := { p.spec with webhookTLSSecretName := b } }

/-- GetESSTLSSecretName of this ConfigurationRevision. -/
def ConfigurationRevision.GetESSTLSSecretName (p : ConfigurationRevision) : Option String :=
  p.spec.essTLSSecretName

/-- SetESSTLSSecretName of this ConfigurationRevision. -/
def ConfigurationRevision.SetESSTLSSecretName (p : ConfigurationRevision) (s : Option String) : ConfigurationRevision :=
  { p with spec := { p.spec with essTLSSecretName := s } }

/-- GetTLSServerSecretName of this ConfigurationRevision. -/
def ConfigurationRevision.GetTLSServerSecretName (p : ConfigurationRevision) : Option String :=
  p.spec.tlsServerSecretName

/-- SetTLSServerSecretName of this ConfigurationRevision. -/
def ConfigurationRevision.SetTLSServerSecretName (p : ConfigurationRevision) (s : Option String) : ConfigurationRevision :=
  { p with spec := { p.spec with tlsServerSecretName := s } }

/-- GetTLSClientSecretName of this ConfigurationRevision. -/
def ConfigurationRevision.GetTLSClientSecretName (p : ConfigurationRevision) : Option String :=
  p.spec.tlsClientSecretName

/-- SetTLSClientSecretName of this ConfigurationRevision. -/
def ConfigurationRevision.SetTLSClientSecretName (p : ConfigurationRevision) (s : Option String) : ConfigurationRevision :=
  { p with spec := { p.spec with tlsClientSecretName := s } }

/-- GetCommonLabels of this ConfigurationRevision. -/
def ConfigurationRevision.GetCommonLabels (p : ConfigurationRevision) : List (String × String) :=
  p.spec.commonLabels

/-- SetCommonLabels of this ConfigurationRevision. -/
def ConfigurationRevision.SetCommonLabels (p : ConfigurationRevision) (l : List (String × String)) : ConfigurationRevision :=
  { p with spec := { p.spec with commonLabels := l } }

/-- The PackageRevision interface: the tagged union of the two concrete
revision variants, as handed out by PackageRevisionList.GetRevisions. -/
inductive PackageRevision where
  | provider (p : ProviderRevision)
  | configuration (c : ConfigurationRevision)
  deriving DecidableEq, Repr

/-- A ProviderRevisionList: Items holds the concrete revisions. -/
structure ProviderRevisionList where
  items : List ProviderRevision
  deriving DecidableEq, Repr

/-- A ConfigurationRevisionList: Items holds the concrete revisions. -/
structure ConfigurationRevisionList where
  items : List ConfigurationRevision
  deriving DecidableEq, Repr

/-- GetRevisions of this ProviderRevisionList: one interface value per item,
in order, each carrying a copy of the item (the source pins the range variable
with r := r before taking its address). -/
def ProviderRevisionList.GetRevisions (p : ProviderRevisionList) : List PackageRevision :=
  p.items.map PackageRevision.provider

/-- GetRevisions of this ConfigurationRevisionList: one interface value per
item, in order, each carrying a copy of the item. -/
def ConfigurationRevisionList.GetRevisions (p : ConfigurationRevisionList) : List PackageRevision :=
  p.items.map PackageRevision.configuration

/-- A zero-valued PackageSpec (a Go struct literal with every field at its
zero value). -/
def emptyPackageSpec : PackageSpec :=
  { package := "", revisionActivationPolicy := none, packagePullSecrets := [],
    packagePullPolicy := none, revisionHistoryLimit := none,
    ignoreCrossplaneConstraints := none, controllerConfigReference := none,
    skipDependencyResolution := none, commonLabels := [] }

/-- A zero-valued PackageStatus. -/
def emptyPackageStatus : PackageStatus :=
  { conditions := [], currentRevision := "", currentIdentifier := "" }

/-- A zero-valued Provider. -/
def emptyProvider : Provider :=
  { spec := emptyPackageSpec, status := emptyPackageStatus }

/-- A zero-valued Configuration. -/
def emptyConfiguration : Configuration :=
  { spec := emptyPackageSpec, status := emptyPackageStatus }

/-- A zero-valued PackageRevisionSpec. -/
def emptyPackageRevisionSpec : PackageRevisionSpec :=
  { package := "", packagePullSecrets := [], packagePullPolicy := none,
    desiredState := "", ignoreCrossplaneConstraints := none,
    controllerConfigReference := none, revision := 0,
    skipDependencyResolution := none, webhookTLSSecretName := none,
    essTLSSecretName := none, tlsServerSecretName := none,
    tlsClientSecretName := none, commonLabels := [] }

/-- A zero-valued PackageRevisionStatus: all three dependency counters are 0. -/
def emptyPackageRevisionStatus : PackageRevisionStatus :=
  { conditions := [], objectRefs := [], controllerRef := { name := "" },
    foundDependencies := 0, installedDependencies := 0,
    invalidDependencies := 0, permissionRequests := [] }

/-- A zero-valued ProviderRevision. -/
def emptyProviderRevision : ProviderRevision :=
  { spec := emptyPackageRevisionSpec, status := emptyPackageRevisionStatus }

/-- A zero-valued ConfigurationRevision. -/
def emptyConfigurationRevision : ConfigurationRevision :=
  { spec := emptyPackageRevisionSpec, status := emptyPackageRevisionStatus }

/-- The Active desired state, per the CRD documentation of spec.desiredState
(Can be either Active or Inactive). -/
def PackageRevisionActive : PackageRevisionDesiredState := "Active"

/-- The Inactive desired state. -/
def PackageRevisionInactive : PackageRevisionDesiredState := "Inactive"

/-- A string-typed property of an OpenAPI v3 schema: the declared type and the
optional enum list restricting legal values. -/
structure StringPropSchema where
  type : String
  enum : Option (List String)
  deriving DecidableEq, Repr

/-- The spec.desiredState property of the FunctionRevision CRD schema
(cluster/crds/pkg.crossplane.io_functionrevisions.yaml, lines 82-85): declared
type string, with no enum restriction. -/
def desiredStateSchema : StringPropSchema :=
  { type := "string", enum := none }

/-- Modelled from the spec: OpenAPI v3 enum validation performed by the
external schema validation framework (out of scope per spec section 1) — a
string value is accepted for a string property iff the property declares no
enum or the enum lists the value. -/
def StringPropSchema.accepts (s : StringPropSchema) (v : String) : Bool :=
  match s.enum with
  | none => true
  | some vs => vs.contains v

/-- Object metadata, reduced to the single field the CRD printer columns
read. -/
structure ObjectMeta where
  creationTimestamp : String
  deriving DecidableEq, Repr

/-- A FunctionRevision object as persisted by the CRD: metadata plus the
shared PackageRevision spec and status. -/
structure FunctionRevision where
  metadata : ObjectMeta
  spec : PackageRevisionSpec
  status : PackageRevisionStatus
  deriving DecidableEq, Repr

/-- A printer column of the CRD: display name, the jsonPath the value is
derived from, and the declared column type. -/
structure PrinterColumn where
  name : String
  jsonPath : String
  type : String
  deriving DecidableEq, Repr

/-- The additionalPrinterColumns of the FunctionRevision CRD
(cluster/crds/pkg.crossplane.io_functionrevisions.yaml, lines 19-40), in
order. -/
def functionRevisionPrinterColumns : List PrinterColumn :=
  [ { name := "HEALTHY", jsonPath := ".status.conditions[?(@.type==\x27Healthy\x27)].status", type := "string" },
    { name := "REVISION", jsonPath := ".spec.revision", type := "string" },
    { name := "IMAGE", jsonPath := ".spec.image", type := "string" },
    { name := "STATE", jsonPath := ".spec.desiredState", type := "string" },
    { name := "DEP-FOUND", jsonPath := ".status.foundDependencies", type := "string" },
    { name := "DEP-INSTALLED", jsonPath := ".status.installedDependencies", type := "string" },
    { name := "AGE", jsonPath := ".metadata.creationTimestamp", type := "date" } ]

/-- Modelled from the spec: the external display layer evaluates each printer
column's jsonPath against the persisted object (spec section 6: the summary
columns are derived directly from spec/status fields); only the paths
occurring in this CRD are interpreted. spec.image is the JSON name of the
package source field; integer fields render in decimal; the conditions filter
selects the condition whose type equals the quoted string. -/
def evalColumnPath (path : String) (r : FunctionRevision) : Option String :=
  if path = ".status.conditions[?(@.type==\x27Healthy\x27)].status" then
    (r.status.conditions.find? (fun c => c.type == "Healthy")).map (fun c => c.status)
  else if path = ".spec.revision" then some (toString r.spec.revision)
  else if path = ".spec.image" then some r.spec.package
  else if path = ".spec.desiredState" then some r.spec.desiredState
  else if path = ".status.foundDependencies" then some (toString r.status.foundDependencies)
  else if path = ".status.installedDependencies" then some (toString r.status.installedDependencies)
  else if path = ".metadata.creationTimestamp" then some r.metadata.creationTimestamp
  else none

/-- The jsonPath of the printer column with the given display name. -/
def columnPath (n : String) : Option String :=
  (functionRevisionPrinterColumns.find? (fun c => c.name == n)).map (fun c => c.jsonPath)

/-- GetDesiredState through the PackageRevision interface (dynamic dispatch
over the two concrete variants). -/
def PackageRevision.GetDesiredState : PackageRevision → PackageRevisionDesiredState
  | .provider p => p.GetDesiredState
  | .configuration c => c.GetDesiredState

/-- GetRevision through the PackageRevision interface. -/
def PackageRevision.GetRevision : PackageRevision → Int
  | .provider p => p.GetRevision
  | .configuration c => c.GetRevision

/-- Insert a revision into a list sorted by ascending revision number. -/
def insertByRevision (r : PackageRevision) : List PackageRevision → List PackageRevision
  | [] => [r]
  | x :: xs =>
    if r.GetRevision ≤ x.GetRevision then r :: x :: xs
    else x :: insertByRevision r xs

/-- Sort revisions by ascending revision number (insertion sort). -/
def sortByRevision : List PackageRevision → List PackageRevision
  | [] => []
  | x :: xs => insertByRevision x (sortByRevision xs)

/-- Modelled from the spec: retention enforcement of the Package Reconciler
(spec section 4.1 step 3; the reconciler itself is not part of this source
slice). Among the revisions with desiredState Inactive, when their count
exceeds the revision history limit, the oldest-by-revision-number excess is
selected for deletion, oldest first; Active revisions are never considered. -/
def retentionSelect (revs : List PackageRevision) (limit : Nat) : List PackageRevision :=
  let inactive := revs.filter (fun r => r.GetDesiredState == PackageRevisionInactive)
  (sortByRevision inactive).take (inactive.length - limit)

/-- One mutation through the PackageRevision interface: each constructor is
one setter of the interface together with its argument. -/
inductive RevOp where
  | setObjects (c : List TypedReference)
  | setControllerReference (c : ControllerReference)
  | setSource (s : String)
  | setPackagePullSecrets (s : List LocalObjectReference)
  | setPackagePullPolicy (i : Option PullPolicy)
  | setDesiredState (d : PackageRevisionDesiredState)
  | setIgnoreCrossplaneConstraints (b : Option Bool)
  | setControllerConfigRef (r : Option ControllerConfigReference)
  | setRevision (r : Int)
  | setSkipDependencyResolution (b : Option Bool)
  | setDependencyStatus (found installed invalid : Int)
  | setWebhookTLSSecretName (n : Option String)
  | setCommonLabels (l : List (String × String))
  | setESSTLSSecretName (s : Option String)
  | setTLSServerSecretName (n : Option String)
  | setTLSClientSecretName (n : Option String)
  deriving DecidableEq, Repr

/-- Apply one interface operation to a ProviderRevision. -/
def ProviderRevision.applyOp (p : ProviderRevision) : RevOp → ProviderRevision
  | .setObjects c => p.SetObjects c
  | .setControllerReference c => p.SetControllerReference c
  | .setSource s => p.SetSource s
  | .setPackagePullSecrets s => p.SetPackagePullSecrets s
  | .setPackagePullPolicy i => p.SetPackagePullPolicy i
  | .setDesiredState d => p.SetDesiredState d
  | .setIgnoreCrossplaneConstraints b => p.SetIgnoreCrossplaneConstraints b
  | .setControllerConfigRef r => p.SetControllerConfigRef r
  | .setRevision r => p.SetRevision r
  | .setSkipDependencyResolution b => p.SetSkipDependencyResolution b
  | .setDependencyStatus f i v => p.SetDependencyStatus f i v
  | .setWebhookTLSSecretName n => p.SetWebhookTLSSecretName n
  | .setCommonLabels l => p.SetCommonLabels l
  | .setESSTLSSecretName s => p.SetESSTLSSecretName s
  | .setTLSServerSecretName n => p.SetTLSServerSecretName n
  | .setTLSClientSecretName n => p.SetTLSClientSecretName n

/-- Apply one interface operation to a ConfigurationRevision. -/
def ConfigurationRevision.applyOp (p : ConfigurationRevision) : RevOp → ConfigurationRevision
  | .setObjects c => p.SetObjects c
  | .setControllerReference c => p.SetControllerReference c
  | .setSource s => p.SetSource s
  | .setPackagePullSecrets s => p.SetPackagePullSecrets s
  | .setPackagePullPolicy i => p.SetPackagePullPolicy i
  | .setDesiredState d => p.SetDesiredState d
  | .setIgnoreCrossplaneConstraints b => p.SetIgnoreCrossplaneConstraints b
  | .setControllerConfigRef r => p.SetControllerConfigRef r
  | .setRevision r => p.SetRevision r
  | .setSkipDependencyResolution b => p.SetSkipDependencyResolution b
  | .setDependencyStatus f i v => p.SetDependencyStatus f i v
  | .setWebhookTLSSecretName n => p.SetWebhookTLSSecretName n
  | .setCommonLabels l => p.SetCommonLabels l
  | .setESSTLSSecretName s => p.SetESSTLSSecretName s
  | .setTLSServerSecretName n => p.SetTLSServerSecretName n
  | .setTLSClientSecretName n => p.SetTLSClientSecretName n

/-- The dependency-counter bounds the spec requires of every revision:
0 &le; invalid &le; found and 0 &le; installed &le; found. -/
abbrev depOK (found installed invalid : Int) : Prop :=
  0 ≤ invalid ∧ invalid ≤ found ∧ 0 ≤ installed ∧ installed ≤ found

/-- An operation respects the dependency-counter bounds when any triple it
writes satisfies depOK; operations not touching the counters do so
vacuously. -/
def RevOp.respectsDepBounds : RevOp → Prop
  | .setDependencyStatus f i v => depOK f i v
  | _ => True

instance (op : RevOp) : Decidable op.respectsDepBounds := by
  cases op <;> simp only [RevOp.respectsDepBounds] <;> infer_instance

/-- Heap model of the Go loop body of GetRevisions: the list's backing array
occupies cells 0 .. n-1 of a heap of revision records; each iteration pins the
range variable (r := r, a fresh cell copied from Items[i]) and stores its
address, so the interface values returned point at the fresh cells
n .. 2n-1 holding copies, never at the backing array. The first component is
the heap after the loop, the second the pointers returned. -/
def getRevisionsHeapModel {α : Type} (items : List α) : List α × List Nat :=
  (items ++ items, (List.range items.length).map (fun i => items.length + i))

/-- Modelled from the spec: the activation policy value set — exactly
Automatic and Manual (spec section 3: enum with default Automatic; the Package
CRD schema enforcing this is not part of this source slice). -/
inductive ActivationPolicyValue where
  | Automatic
  | Manual
  deriving DecidableEq, Repr

/-- The string carried by each activation policy value, matching the two
declared constants of the source. -/
def ActivationPolicyValue.toPolicy : ActivationPolicyValue → RevisionActivationPolicy
  | .Automatic => AutomaticActivation
  | .Manual => ManualActivation

/-- Modelled from the spec: the effective activation policy of a package is
the declared one, or Automatic when the operator has not set one (spec
section 3: default Automatic; the defaulting lives in the reconciler, which is
not part of this source slice). -/
def effectiveActivationPolicy (a : Option RevisionActivationPolicy) : RevisionActivationPolicy :=
  a.getD AutomaticActivation

/-- A revision used in retention examples: Active, revision number 3. -/
def c3RevActive : PackageRevision :=
  .provider ((emptyProviderRevision.SetRevision 3).SetDesiredState PackageRevisionActive)

/-- A revision used in retention examples: Inactive, revision number 1. -/
def c3RevOld : PackageRevision :=
  .provider ((emptyProviderRevision.SetRevision 1).SetDesiredState PackageRevisionInactive)

/-- A revision used in retention examples: Inactive, revision number 2. -/
def c3RevNew : PackageRevision :=
  .provider ((emptyProviderRevision.SetRevision 2).SetDesiredState PackageRevisionInactive)

/-- Taking fewer elements than the index written leaves a list's prefix
unchanged. -/
theorem take_set_of_ge {α : Type} (v : α) :
    ∀ (l : List α) (n k : Nat), n ≤ k → (l.set k v).take n = l.take n
  | [], _, _, _ => by simp
  | _ :: _, 0, _, _ => by simp
  | _ :: _, n + 1, 0, h => absurd h (Nat.not_succ_le_zero n)
  | x :: xs, n + 1, k + 1, h => by
    show x :: (xs.set k v).take n = x :: xs.take n
    rw [take_set_of_ge v xs n k (Nat.le_of_succ_le_succ h)]

/-- Reading the heap through the i-th pointer returned by the heap model of
GetRevisions yields Items[i]. -/
theorem heapModel_read {α : Type} (items : List α) (i : Nat) :
    (((getRevisionsHeapModel items).2)[i]?).bind
      (fun ptr => ((getRevisionsHeapModel items).1)[ptr]?) = items[i]? := by
  by_cases h : i < items.length
  · have h1 : ((List.range items.length).map (fun j => items.length + j))[i]? =
        some (items.length + i) := by
      simp [List.getElem?_map, List.getElem?_range, h]
    simp only [getRevisionsHeapModel, h1, Option.some_bind]
    rw [List.getElem?_append_right (Nat.le_add_right _ _)]
    simp
  · have h1 : items.length ≤ i := Nat.le_of_not_lt h
    have h2 : ((List.range items.length).map (fun j => items.length + j))[i]? = none := by
      rw [List.getElem?_eq_none]
      simpa using h1
    have h3 : items[i]? = none := List.getElem?_eq_none h1
    simp only [getRevisionsHeapModel, h2, h3, Option.none_bind]

/-- Every pointer handed out by the heap model of GetRevisions addresses a
fresh cell, beyond the backing array. -/
theorem heapModel_ptr_ge {α : Type} (items : List α) (i : Nat) :
    items.length ≤ ((getRevisionsHeapModel items).2).getD i items.length := by
  by_cases h : i < items.length
  · have h1 : ((getRevisionsHeapModel items).2)[i]? = some (items.length + i) := by
      simp [getRevisionsHeapModel, List.getElem?_map, List.getElem?_range, h]
    simp [List.getD, h1, Nat.le_add_right]
  · have h1 : ((getRevisionsHeapModel items).2)[i]? = none := by
      rw [List.getElem?_eq_none]
      simpa [getRevisionsHeapModel] using Nat.le_of_not_lt h
    simp [List.getD, h1]

/-- Writing the heap through any pointer handed out by the heap model of
GetRevisions leaves the backing array of Items unchanged. -/
theorem heapModel_write_frame {α : Type} (items : List α) (i : Nat) (v : α) :
    (((getRevisionsHeapModel items).1).set
        (((getRevisionsHeapModel items).2).getD i items.length) v).take items.length
      = items := by
  rw [take_set_of_ge v _ _ _ (heapModel_ptr_ge items i)]
  exact List.take_left items items

/-- Membership in an insertion step of the revision sort. -/
theorem mem_insertByRevision (r a : PackageRevision) (l : List PackageRevision) :
    a ∈ insertByRevision r l ↔ a = r ∨ a ∈ l := by
  induction l with
  | nil => simp [insertByRevision]
  | cons x xs ih =>
    by_cases h : r.GetRevision ≤ x.GetRevision
    · simp only [insertByRevision, if_pos h, List.mem_cons]
    · simp only [insertByRevision, if_neg h, List.mem_cons, ih]
      tauto

/-- The revision sort permutes membership. -/
theorem mem_sortByRevision (a : PackageRevision) (l : List PackageRevision) :
    a ∈ sortByRevision l ↔ a ∈ l := by
  induction l with
  | nil => simp [sortByRevision]
  | cons x xs ih => simp [sortByRevision, mem_insertByRevision, ih]

/-- Inserting preserves sortedness by ascending revision number. -/
theorem pairwise_insertByRevision (r : PackageRevision) (l : List PackageRevision)
    (h : l.Pairwise (fun a b => a.GetRevision ≤ b.GetRevision)) :
    (insertByRevision r l).Pairwise (fun a b => a.GetRevision ≤ b.GetRevision) := by
  induction l with
  | nil => simp [insertByRevision]
  | cons x xs ih =>
    rcases List.pairwise_cons.mp h with ⟨hx, hxs⟩
    by_cases hle : r.GetRevision ≤ x.GetRevision
    · simp only [insertByRevision, if_pos hle]
      refine List.pairwise_cons.mpr ⟨?_, h⟩
      intro b hb
      rcases List.mem_cons.mp hb with rfl | hb
      · exact hle
      · exact le_trans hle (hx b hb)
    · simp only [insertByRevision, if_neg hle]
      refine List.pairwise_cons.mpr ⟨?_, ih hxs⟩
      intro b hb
      rcases (mem_insertByRevision r b xs).mp hb with rfl | hb
      · exact le_of_not_le hle
      · exact hx b hb

/-- The revision sort produces a list sorted by ascending revision number. -/
theorem pairwise_sortByRevision (l : List PackageRevision) :
    (sortByRevision l).Pairwise (fun a b => a.GetRevision ≤ b.GetRevision) := by
  induction l with
  | nil => simp [sortByRevision]
  | cons x xs ih =>
    exact pairwise_insertByRevision x (sortByRevision xs) ih

/-- One bounds-respecting operation preserves the dependency-counter bounds of
a ProviderRevision. -/
theorem depOK_applyOp_provider (p : ProviderRevision) (op : RevOp)
    (hop : op.respectsDepBounds)
    (hp : depOK p.status.foundDependencies p.status.installedDependencies
      p.status.invalidDependencies) :
    depOK (p.applyOp op).status.foundDependencies
      (p.applyOp op).status.installedDependencies
      (p.applyOp op).status.invalidDependencies := by
  cases op <;> first | exact hp | exact hop

/-- One bounds-respecting operation preserves the dependency-counter bounds of
a ConfigurationRevision. -/
theorem depOK_applyOp_configuration (p : ConfigurationRevision) (op : RevOp)
    (hop : op.respectsDepBounds)
    (hp : depOK p.status.foundDependencies p.status.installedDependencies
      p.status.invalidDependencies) :
    depOK (p.applyOp op).status.foundDependencies
      (p.applyOp op).status.installedDependencies
      (p.applyOp op).status.invalidDependencies := by
  cases op <;> first | exact hp | exact hop

/-- A sequence of bounds-respecting operations preserves the
dependency-counter bounds of a ProviderRevision. -/
theorem depOK_foldl_provider :
    ∀ (ops : List RevOp) (p : ProviderRevision),
      (∀ op ∈ ops, op.respectsDepBounds) →
      depOK p.status.foundDependencies p.status.installedDependencies
        p.status.invalidDependencies →
      depOK (ops.foldl ProviderRevision.applyOp p).status.foundDependencies
        (ops.foldl ProviderRevision.applyOp p).status.installedDependencies
        (ops.foldl ProviderRevision.applyOp p).status.invalidDependencies
  | [], _, _, hp => hp
  | op :: rest, p, hops, hp =>
    depOK_foldl_provider rest (p.applyOp op)
      (fun o ho => hops o (List.mem_cons_of_mem op ho))
      (depOK_applyOp_provider p op (hops op (List.mem_cons_self op rest)) hp)

/-- A sequence of bounds-respecting operations preserves the
dependency-counter bounds of a ConfigurationRevision. -/
theorem depOK_foldl_configuration :
    ∀ (ops : List RevOp) (p : ConfigurationRevision),
      (∀ op ∈ ops, op.respectsDepBounds) →
      depOK p.status.foundDependencies p.status.installedDependencies
        p.status.invalidDependencies →
      depOK (ops.foldl ConfigurationRevision.applyOp p).status.foundDependencies
        (ops.foldl ConfigurationRevision.applyOp p).status.installedDependencies
        (ops.foldl ConfigurationRevision.applyOp p).status.invalidDependencies
  | [], _, _, hp => hp
  | op :: rest, p, hops, hp =>
    depOK_foldl_configuration rest (p.applyOp op)
      (fun o ho => hops o (List.mem_cons_of_mem op ho))
      (depOK_applyOp_configuration p op (hops op (List.mem_cons_self op rest)) hp)

/-- Claim C1 (counterexample): the claim as stated is false — on Configuration,
SetControllerConfigRef followed by GetControllerConfigRef does not return the
value set: the getter returns nil unconditionally. -/
theorem c1_counterexample :
    (emptyConfiguration.SetControllerConfigRef
        (some { name := "cc" })).GetControllerConfigRef ≠
      some { name := "cc" } := by
  decide

/-- Claim C1 (amended): for every field-backed capability of the Package
interface, set-then-get returns the value set on both variants — except
ControllerConfigRef on Configuration, whose setter is a no-op and whose getter
always returns nil; the ControllerConfigRef roundtrip does hold on
Provider. -/
theorem c1_package_roundtrip :
    (∀ (p : Provider) (s : String), (p.SetSource s).GetSource = s) ∧
    (∀ (p : Provider) (a : Option RevisionActivationPolicy),
      (p.SetActivationPolicy a).GetActivationPolicy = a) ∧
    (∀ (p : Provider) (s : List LocalObjectReference),
      (p.SetPackagePullSecrets s).GetPackagePullSecrets = s) ∧
    (∀ (p : Provider) (i : Option PullPolicy),
      (p.SetPackagePullPolicy i).GetPackagePullPolicy = i) ∧
    (∀ (p : Provider) (l : Option Int),
      (p.SetRevisionHistoryLimit l).GetRevisionHistoryLimit = l) ∧
    (∀ (p : Provider) (r : Option ControllerConfigReference),
      (p.SetControllerConfigRef r).GetControllerConfigRef = r) ∧
    (∀ (p : Provider) (s : String), (p.SetCurrentRevision s).GetCurrentRevision = s) ∧
    (∀ (p : Provider) (s : String), (p.SetCurrentIdentifier s).GetCurrentIdentifier = s) ∧
    (∀ (p : Provider) (b : Option Bool),
      (p.SetSkipDependencyResolution b).GetSkipDependencyResolution = b) ∧
    (∀ (p : Provider) (l : List (String × String)),
      (p.SetCommonLabels l).GetCommonLabels = l) ∧
    (∀ (c : Configuration) (s : String), (c.SetSource s).GetSource = s) ∧
    (∀ (c : Configuration) (a : Option RevisionActivationPolicy),
      (c.SetActivationPolicy a).GetActivationPolicy = a) ∧
    (∀ (c : Configuration) (s : List LocalObjectReference),
      (c.SetPackagePullSecrets s).GetPackagePullSecrets = s) ∧
    (∀ (c : Configuration) (i : Option PullPolicy),
      (c.SetPackagePullPolicy i).GetPackagePullPolicy = i) ∧
    (∀ (c : Configuration) (l : Option Int),
      (c.SetRevisionHistoryLimit l).GetRevisionHistoryLimit = l) ∧
    (∀ (c : Configuration) (s : String), (c.SetCurrentRevision s).GetCurrentRevision = s) ∧
    (∀ (c : Configuration) (s : String), (c.SetCurrentIdentifier s).GetCurrentIdentifier = s) ∧
    (∀ (c : Configuration) (b : Option Bool),
      (c.SetSkipDependencyResolution b).GetSkipDependencyResolution = b) ∧
    (∀ (c : Configuration) (l : List (String × String)),
      (c.SetCommonLabels l).GetCommonLabels = l) ∧
    (∀ (c : Configuration) (r : Option ControllerConfigReference),
      (c.SetControllerConfigRef r).GetControllerConfigRef = none) ∧
    (∀ (c : Configuration) (r : Option ControllerConfigReference),
      c.SetControllerConfigRef r = c) := by
  repeat' apply And.intro
  all_goals intros
  all_goals rfl

/-- Claim C2 (counterexample): the claim as stated is false — a single
SetDependencyStatus call, itself one of the revision's operations, reaches a
state with installed greater than found, because the setter stores the given
counters unvalidated. -/
theorem c2_counterexample :
    (emptyProviderRevision.SetDependencyStatus 0 5 7).GetDependencyStatus = (0, 5, 7) ∧
    ¬ ((emptyProviderRevision.SetDependencyStatus 0 5 7).status.installedDependencies ≤
        (emptyProviderRevision.SetDependencyStatus 0 5 7).status.foundDependencies) := by
  decide

/-- Claim C2 (amended): the dependency counters satisfy
0 &le; invalid &le; found and 0 &le; installed &le; found in every state reached
from a state satisfying the bounds by operations whose SetDependencyStatus
calls pass bounds-satisfying triples, on both revision variants; the
zero-valued initial state satisfies the bounds. The setters themselves
validate nothing. -/
theorem c2_dependency_bounds_preserved (ops : List RevOp)
    (hops : ∀ op ∈ ops, op.respectsDepBounds) :
    (∀ p : ProviderRevision,
      depOK p.status.foundDependencies p.status.installedDependencies
        p.status.invalidDependencies →
      depOK (ops.foldl ProviderRevision.applyOp p).status.foundDependencies
        (ops.foldl ProviderRevision.applyOp p).status.installedDependencies
        (ops.foldl ProviderRevision.applyOp p).status.invalidDependencies) ∧
    (∀ c : ConfigurationRevision,
      depOK c.status.foundDependencies c.status.installedDependencies
        c.status.invalidDependencies →
      depOK (ops.foldl ConfigurationRevision.applyOp c).status.foundDependencies
        (ops.foldl ConfigurationRevision.applyOp c).status.installedDependencies
        (ops.foldl ConfigurationRevision.applyOp c).status.invalidDependencies) ∧
    depOK emptyProviderRevision.status.foundDependencies
      emptyProviderRevision.status.installedDependencies
      emptyProviderRevision.status.invalidDependencies ∧
    depOK emptyConfigurationRevision.status.foundDependencies
      emptyConfigurationRevision.status.installedDependencies
      emptyConfigurationRevision.status.invalidDependencies :=
  ⟨fun p hp => depOK_foldl_provider ops p hops hp,
   fun c hc => depOK_foldl_configuration ops c hops hc,
   by decide, by decide⟩

/-- Claim C2 (witness): the amended theorem applied to the zero-valued
ProviderRevision and ConfigurationRevision and a concrete bounds-respecting
operation sequence. -/
theorem c2_witness :
    depOK ([RevOp.setDependencyStatus 3 2 1].foldl ProviderRevision.applyOp
        emptyProviderRevision).status.foundDependencies
      ([RevOp.setDependencyStatus 3 2 1].foldl ProviderRevision.applyOp
        emptyProviderRevision).status.installedDependencies
      ([RevOp.setDependencyStatus 3 2 1].foldl ProviderRevision.applyOp
        emptyProviderRevision).status.invalidDependencies ∧
    depOK ([RevOp.setDependencyStatus 3 2 1].foldl ConfigurationRevision.applyOp
        emptyConfigurationRevision).status.foundDependencies
      ([RevOp.setDependencyStatus 3 2 1].foldl ConfigurationRevision.applyOp
        emptyConfigurationRevision).status.installedDependencies
      ([RevOp.setDependencyStatus 3 2 1].foldl ConfigurationRevision.applyOp
        emptyConfigurationRevision).status.invalidDependencies :=
  ⟨(c2_dependency_bounds_preserved [RevOp.setDependencyStatus 3 2 1]
      (by decide)).1 emptyProviderRevision (by decide),
   (c2_dependency_bounds_preserved [RevOp.setDependencyStatus 3 2 1]
      (by decide)).2.1 emptyConfigurationRevision (by decide)⟩

/-- Claim C3 (confirmed, spec-modelled): retention enforcement selects only
revisions with desiredState Inactive — never a revision with desiredState
Active — for every revision set and every history limit, and the selection is
ordered oldest-by-revision-number first. -/
theorem c3_retention_never_deletes_active (revs : List PackageRevision) (limit : Nat) :
    (∀ r ∈ retentionSelect revs limit,
      r.GetDesiredState = PackageRevisionInactive) ∧
    (∀ a ∈ revs, a.GetDesiredState = PackageRevisionActive →
      a ∉ retentionSelect revs limit) ∧
    (retentionSelect revs limit).Pairwise
      (fun a b => a.GetRevision ≤ b.GetRevision) := by
  have hmem : ∀ r ∈ retentionSelect revs limit,
      r.GetDesiredState = PackageRevisionInactive := by
    intro r hr
    simp only [retentionSelect] at hr
    have h1 := List.mem_of_mem_take hr
    have h2 := (mem_sortByRevision r _).mp h1
    have h3 := (List.mem_filter.mp h2).2
    exact eq_of_beq h3
  refine ⟨hmem, ?_, ?_⟩
  · intro a _ ha hsel
    have h := hmem a hsel
    rw [ha] at h
    exact absurd h (by decide)
  · simp only [retentionSelect]
    exact (pairwise_sortByRevision _).sublist (List.take_sublist _ _)

/-- Claim C3 (witness): on a concrete revision set holding one Active and two
Inactive revisions with limit 0, the oldest Inactive revision is selected and
shown Inactive, and the Active revision is not selected. -/
theorem c3_retention_witness :
    c3RevOld.GetDesiredState = PackageRevisionInactive ∧
    c3RevActive ∉ retentionSelect [c3RevActive, c3RevOld, c3RevNew] 0 :=
  ⟨(c3_retention_never_deletes_active [c3RevActive, c3RevOld, c3RevNew] 0).1
      c3RevOld (by decide),
   (c3_retention_never_deletes_active [c3RevActive, c3RevOld, c3RevNew] 0).2.1
      c3RevActive (by decide) (by decide)⟩

/-- Claim C4 (confirmed): GetRevisions on both revision list types returns a
list of the same length as Items whose i-th element carries Items[i], in
order; and in the heap model of the loop, reading through any returned
pointer yields the corresponding item while writing any value through any
returned pointer leaves the backing array of Items unchanged (the returned
elements are owned copies, not aliases). -/
theorem c4_getrevisions_owned_copies (pl : ProviderRevisionList)
    (cl : ConfigurationRevisionList) :
    pl.GetRevisions.length = pl.items.length ∧
    (∀ i : Nat, pl.GetRevisions[i]? = (pl.items[i]?).map PackageRevision.provider) ∧
    cl.GetRevisions.length = cl.items.length ∧
    (∀ i : Nat,
      cl.GetRevisions[i]? = (cl.items[i]?).map PackageRevision.configuration) ∧
    (∀ i : Nat, (((getRevisionsHeapModel pl.items).2)[i]?).bind
        (fun ptr => ((getRevisionsHeapModel pl.items).1)[ptr]?) = pl.items[i]?) ∧
    (∀ i : Nat, (((getRevisionsHeapModel cl.items).2)[i]?).bind
        (fun ptr => ((getRevisionsHeapModel cl.items).1)[ptr]?) = cl.items[i]?) ∧
    (∀ (i : Nat) (v : ProviderRevision),
      (((getRevisionsHeapModel pl.items).1).set
          (((getRevisionsHeapModel pl.items).2).getD i pl.items.length) v).take
        pl.items.length = pl.items) ∧
    (∀ (i : Nat) (v : ConfigurationRevision),
      (((getRevisionsHeapModel cl.items).1).set
          (((getRevisionsHeapModel cl.items).2).getD i cl.items.length) v).take
        cl.items.length = cl.items) := by
  refine ⟨?_, ?_, ?_, ?_, ?_, ?_, ?_, ?_⟩
  · simp [ProviderRevisionList.GetRevisions]
  · intro i
    simp [ProviderRevisionList.GetRevisions, List.getElem?_map]
  · simp [ConfigurationRevisionList.GetRevisions]
  · intro i
    simp [ConfigurationRevisionList.GetRevisions, List.getElem?_map]
  · intro i
    exact heapModel_read pl.items i
  · intro i
    exact heapModel_read cl.items i
  · intro i v
    exact heapModel_write_frame pl.items i v
  · intro i v
    exact heapModel_write_frame cl.items i v

/-- Claim C5 (counterexample): the claim as stated is false — the persisted
schema declares desiredState as a plain string with no enum, so it accepts the
value Bogus, and SetDesiredState stores Bogus unvalidated, after which the
field holds a value that is neither Active nor Inactive. -/
theorem c5_counterexample :
    desiredStateSchema.accepts "Bogus" = true ∧
    (emptyProviderRevision.SetDesiredState "Bogus").GetDesiredState = "Bogus" ∧
    (emptyProviderRevision.SetDesiredState "Bogus").GetDesiredState ≠
      PackageRevisionActive ∧
    (emptyProviderRevision.SetDesiredState "Bogus").GetDesiredState ≠
      PackageRevisionInactive := by
  decide

/-- Claim C5 (amended): desiredState is a plain string field — the persisted
schema declares type string with no enum and therefore accepts every string,
and SetDesiredState on both revision variants stores any string and
GetDesiredState returns it; Active and Inactive are the only intended values
but neither the schema nor the setter rejects others. -/
theorem c5_desired_state_unrestricted :
    desiredStateSchema.type = "string" ∧
    desiredStateSchema.enum = none ∧
    (∀ v : String, desiredStateSchema.accepts v = true) ∧
    (∀ (p : ProviderRevision) (s : PackageRevisionDesiredState),
      (p.SetDesiredState s).GetDesiredState = s) ∧
    (∀ (c : ConfigurationRevision) (s : PackageRevisionDesiredState),
      (c.SetDesiredState s).GetDesiredState = s) :=
  ⟨rfl, rfl, fun _ => rfl, fun _ _ => rfl, fun _ _ => rfl⟩

/-- Claim C6 (confirmed): on both revision variants, SetDependencyStatus
followed by GetDependencyStatus returns exactly the triple written, and the
three counters land in the status fields foundDependencies,
installedDependencies and invalidDependencies respectively. -/
theorem c6_dependency_status_roundtrip :
    (∀ (p : ProviderRevision) (f i v : Int),
      (p.SetDependencyStatus f i v).GetDependencyStatus = (f, i, v) ∧
      (p.SetDependencyStatus f i v).status.foundDependencies = f ∧
      (p.SetDependencyStatus f i v).status.installedDependencies = i ∧
      (p.SetDependencyStatus f i v).status.invalidDependencies = v) ∧
    (∀ (c : ConfigurationRevision) (f i v : Int),
      (c.SetDependencyStatus f i v).GetDependencyStatus = (f, i, v) ∧
      (c.SetDependencyStatus f i v).status.foundDependencies = f ∧
      (c.SetDependencyStatus f i v).status.installedDependencies = i ∧
      (c.SetDependencyStatus f i v).status.invalidDependencies = v) :=
  ⟨fun _ _ _ _ => ⟨rfl, rfl, rfl, rfl⟩, fun _ _ _ _ => ⟨rfl, rfl, rfl, rfl⟩⟩

/-- Claim C7 (confirmed, spec-modelled): the activation policy value set
admits exactly the two distinct values Automatic and Manual, and whenever a
package carries no declared activation policy the effective policy is the
default, Automatic, on both variants. -/
theorem c7_activation_policy :
    (∀ v : ActivationPolicyValue,
      v = ActivationPolicyValue.Automatic ∨ v = ActivationPolicyValue.Manual) ∧
    ActivationPolicyValue.Automatic.toPolicy = AutomaticActivation ∧
    ActivationPolicyValue.Manual.toPolicy = ManualActivation ∧
    AutomaticActivation ≠ ManualActivation ∧
    effectiveActivationPolicy none = AutomaticActivation ∧
    (∀ p : Provider, p.GetActivationPolicy = none →
      effectiveActivationPolicy p.GetActivationPolicy = AutomaticActivation) ∧
    (∀ c : Configuration, c.GetActivationPolicy = none →
      effectiveActivationPolicy c.GetActivationPolicy = AutomaticActivation) := by
  refine ⟨fun v => ?_, rfl, rfl, by decide, rfl, fun p h => ?_, fun c h => ?_⟩
  · cases v
    · exact Or.inl rfl
    · exact Or.inr rfl
  · rw [h]
    rfl
  · rw [h]
    rfl

/-- Claim C7 (witness): the zero-valued Provider and Configuration declare no
activation policy, and their effective policy is Automatic. -/
theorem c7_witness :
    emptyProvider.GetActivationPolicy = none ∧
    effectiveActivationPolicy emptyProvider.GetActivationPolicy =
      AutomaticActivation ∧
    effectiveActivationPolicy emptyConfiguration.GetActivationPolicy =
      AutomaticActivation :=
  ⟨rfl,
   c7_activation_policy.2.2.2.2.2.1 emptyProvider rfl,
   c7_activation_policy.2.2.2.2.2.2 emptyConfiguration rfl⟩

/-- Claim C8 (confirmed): evaluating the jsonPath of each CRD printer column
on any revision yields the corresponding field — REVISION from spec.revision,
IMAGE from the package source field (JSON name image), STATE from
spec.desiredState, DEP-FOUND from status.foundDependencies, DEP-INSTALLED
from status.installedDependencies, and HEALTHY from the status of the
condition whose type is Healthy. -/
theorem c8_printer_columns (r : FunctionRevision) :
    ((columnPath "REVISION").bind (fun path => evalColumnPath path r)) =
      some (toString r.spec.revision) ∧
    ((columnPath "IMAGE").bind (fun path => evalColumnPath path r)) =
      some r.spec.package ∧
    ((columnPath "STATE").bind (fun path => evalColumnPath path r)) =
      some r.spec.desiredState ∧
    ((columnPath "DEP-FOUND").bind (fun path => evalColumnPath path r)) =
      some (toString r.status.foundDependencies) ∧
    ((columnPath "DEP-INSTALLED").bind (fun path => evalColumnPath path r)) =
      some (toString r.status.installedDependencies) ∧
    ((columnPath "HEALTHY").bind (fun path => evalColumnPath path r)) =
      (r.status.conditions.find? (fun c => c.type == "Healthy")).map
        (fun c => c.status) :=
  ⟨rfl, rfl, rfl, rfl, rfl, rfl⟩

/-- Claim C9 (confirmed): RefNames returns a list of the same length as the
input whose i-th element is the name of the i-th reference, in order, and the
empty list maps to the empty list. -/
theorem c9_refnames (refs : List LocalObjectReference) :
    (RefNames refs).length = refs.length ∧
    (∀ i : Nat, (RefNames refs)[i]? = (refs[i]?).map (fun r => r.name)) ∧
    RefNames [] = ([] : List String) := by
  refine ⟨?_, ?_, rfl⟩
  · simp [RefNames]
  · intro i
    simp [RefNames, List.getElem?_map]

/-- Claim C10 (confirmed): every setter of the four concrete types mutates
only the field it names — the result's other record component (spec or
status) is identical and the updated component differs from the original in
exactly the named field(s); SetDependencyStatus writes exactly the three
dependency counters, and Configuration.SetControllerConfigRef mutates nothing
at all. -/
theorem c10_setter_frame :
    (∀ (p : Provider) (s : String), (p.SetSource s).status = p.status ∧
      (p.SetSource s).spec = { p.spec with package := s }) ∧
    (∀ (p : Provider) (a : Option RevisionActivationPolicy),
      (p.SetActivationPolicy a).status = p.status ∧
      (p.SetActivationPolicy a).spec = { p.spec with revisionActivationPolicy := a }) ∧
    (∀ (p : Provider) (s : List LocalObjectReference),
      (p.SetPackagePullSecrets s).status = p.status ∧
      (p.SetPackagePullSecrets s).spec = { p.spec with packagePullSecrets := s }) ∧
    (∀ (p : Provider) (i : Option PullPolicy),
      (p.SetPackagePullPolicy i).status = p.status ∧
      (p.SetPackagePullPolicy i).spec = { p.spec with packagePullPolicy := i }) ∧
    (∀ (p : Provider) (l : Option Int),
      (p.SetRevisionHistoryLimit l).status = p.status ∧
      (p.SetRevisionHistoryLimit l).spec = { p.spec with revisionHistoryLimit := l }) ∧
    (∀ (p : Provider) (b : Option Bool),
      (p.SetIgnoreCrossplaneConstraints b).status = p.status ∧
      (p.SetIgnoreCrossplaneConstraints b).spec =
        { p.spec with ignoreCrossplaneConstraints := b }) ∧
    (∀ (p : Provider) (r : Option ControllerConfigReference),
      (p.SetControllerConfigRef r).status = p.status ∧
      (p.SetControllerConfigRef r).spec =
        { p.spec with controllerConfigReference := r }) ∧
    (∀ (p : Provider) (s : String), (p.SetCurrentRevision s).spec = p.spec ∧
      (p.SetCurrentRevision s).status = { p.status with currentRevision := s }) ∧
    (∀ (p : Provider) (s : String), (p.SetCurrentIdentifier s).spec = p.spec ∧
      (p.SetCurrentIdentifier s).status = { p.status with currentIdentifier := s }) ∧
    (∀ (p : Provider) (b : Option Bool),
      (p.SetSkipDependencyResolution b).status = p.status ∧
      (p.SetSkipDependencyResolution b).spec =
        { p.spec with skipDependencyResolution := b }) ∧
    (∀ (p : Provider) (l : List (String × String)),
      (p.SetCommonLabels l).status = p.status ∧
      (p.SetCommonLabels l).spec = { p.spec with commonLabels := l }) ∧
    (∀ (c : Configuration) (s : String), (c.SetSource s).status = c.status ∧
      (c.SetSource s).spec = { c.spec with package := s }) ∧
    (∀ (c : Configuration) (a : Option RevisionActivationPolicy),
      (c.SetActivationPolicy a).status = c.status ∧
      (c.SetActivationPolicy a).spec = { c.spec with revisionActivationPolicy := a }) ∧
    (∀ (c : Configuration) (s : List LocalObjectReference),
      (c.SetPackagePullSecrets s).status = c.status ∧
      (c.SetPackagePullSecrets s).spec = { c.spec with packagePullSecrets := s }) ∧
    (∀ (c : Configuration) (i : Option PullPolicy),
      (c.SetPackagePullPolicy i).status = c.status ∧
      (c.SetPackagePullPolicy i).spec = { c.spec with packagePullPolicy := i }) ∧
    (∀ (c : Configuration) (l : Option Int),
      (c.SetRevisionHistoryLimit l).status = c.status ∧
      (c.SetRevisionHistoryLimit l).spec = { c.spec with revisionHistoryLimit := l }) ∧
    (∀ (c : Configuration) (b : Option Bool),
      (c.SetIgnoreCrossplaneConstraints b).status = c.status ∧
      (c.SetIgnoreCrossplaneConstraints b).spec =
        { c.spec with ignoreCrossplaneConstraints := b }) ∧
    (∀ (c : Configuration) (r : Option ControllerConfigReference),
      c.SetControllerConfigRef r = c) ∧
    (∀ (c : Configuration) (s : String), (c.SetCurrentRevision s).spec = c.spec ∧
      (c.SetCurrentRevision s).status = { c.status with currentRevision := s }) ∧
    (∀ (c : Configuration) (s : String), (c.SetCurrentIdentifier s).spec = c.spec ∧
      (c.SetCurrentIdentifier s).status = { c.status with currentIdentifier := s }) ∧
    (∀ (c : Configuration) (b : Option Bool),
      (c.SetSkipDependencyResolution b).status = c.status ∧
      (c.SetSkipDependencyResolution b).spec =
        { c.spec with skipDependencyResolution := b }) ∧
    (∀ (c : Configuration) (l : List (String × String)),
      (c.SetCommonLabels l).status = c.status ∧
      (c.SetCommonLabels l).spec = { c.spec with commonLabels := l }) ∧
    (∀ (p : ProviderRevision) (c : List TypedReference),
      (p.SetObjects c).spec = p.spec ∧
      (p.SetObjects c).status = { p.status with objectRefs := c }) ∧
    (∀ (p : ProviderRevision) (c : ControllerReference),
      (p.SetControllerReference c).spec = p.spec ∧
      (p.SetControllerReference c).status = { p.status with controllerRef := c }) ∧
    (∀ (p : ProviderRevision) (s : String), (p.SetSource s).status = p.status ∧
      (p.SetSource s).spec = { p.spec with package := s }) ∧
    (∀ (p : ProviderRevision) (s : List LocalObjectReference),
      (p.SetPackagePullSecrets s).status = p.status ∧
      (p.SetPackagePullSecrets s).spec = { p.spec with packagePullSecrets := s }) ∧
    (∀ (p : ProviderRevision) (i : Option PullPolicy),
      (p.SetPackagePullPolicy i).status = p.status ∧
      (p.SetPackagePullPolicy i).spec = { p.spec with packagePullPolicy := i }) ∧
    (∀ (p : ProviderRevision) (d : PackageRevisionDesiredState),
      (p.SetDesiredState d).status = p.status ∧
      (p.SetDesiredState d).spec = { p.spec with desiredState := d }) ∧
    (∀ (p : ProviderRevision) (r : Int), (p.SetRevision r).status = p.status ∧
      (p.SetRevision r).spec = { p.spec with revision := r }) ∧
    (∀ (p : ProviderRevision) (f i v : Int),
      (p.SetDependencyStatus f i v).spec = p.spec ∧
      (p.SetDependencyStatus f i v).status = { p.status with
        foundDependencies := f, installedDependencies := i,
        invalidDependencies := v }) ∧
    (∀ (p : ProviderRevision) (b : Option Bool),
      (p.SetIgnoreCrossplaneConstraints b).status = p.status ∧
      (p.SetIgnoreCrossplaneConstraints b).spec =
        { p.spec with ignoreCrossplaneConstraints := b }) ∧
    (∀ (p : ProviderRevision) (r : Option ControllerConfigReference),
      (p.SetControllerConfigRef r).status = p.status ∧
      (p.SetControllerConfigRef r).spec =
        { p.spec with controllerConfigReference := r }) ∧
    (∀ (p : ProviderRevision) (b : Option Bool),
      (p.SetSkipDependencyResolution b).status = p.status ∧
      (p.SetSkipDependencyResolution b).spec =
        { p.spec with skipDependencyResolution := b }) ∧
    (∀ (p : ProviderRevision) (n : Option String),
      (p.SetWebhookTLSSecretName n).status = p.status ∧
      (p.SetWebhookTLSSecretName n).spec = { p.spec with webhookTLSSecretName := n }) ∧
    (∀ (p : ProviderRevision) (s : Option String),
      (p.SetESSTLSSecretName s).status = p.status ∧
      (p.SetESSTLSSecretName s).spec = { p.spec with essTLSSecretName := s }) ∧
    (∀ (p : ProviderRevision) (s : Option String),
      (p.SetTLSServerSecretName s).status = p.status ∧
      (p.SetTLSServerSecretName s).spec = { p.spec with tlsServerSecretName := s }) ∧
    (∀ (p : ProviderRevision) (s : Option String),
      (p.SetTLSClientSecretName s).status = p.status ∧
      (p.SetTLSClientSecretName s).spec = { p.spec with tlsClientSecretName := s }) ∧
    (∀ (p : ProviderRevision) (l : List (String × String)),
      (p.SetCommonLabels l).status = p.status ∧
      (p.SetCommonLabels l).spec = { p.spec with commonLabels := l }) ∧
    (∀ (q : ConfigurationRevision) (c : List TypedReference),
      (q.SetObjects c).spec = q.spec ∧
      (q.SetObjects c).status = { q.status with objectRefs := c }) ∧
    (∀ (q : ConfigurationRevision) (c : ControllerReference),
      (q.SetControllerReference c).spec = q.spec ∧
      (q.SetControllerReference c).status = { q.status with controllerRef := c }) ∧
    (∀ (q : ConfigurationRevision) (s : String), (q.SetSource s).status = q.status ∧
      (q.SetSource s).spec = { q.spec with package := s }) ∧
    (∀ (q : ConfigurationRevision) (s : List LocalObjectReference),
      (q.SetPackagePullSecrets s).status = q.status ∧
      (q.SetPackagePullSecrets s).spec = { q.spec with packagePullSecrets := s }) ∧
    (∀ (q : ConfigurationRevision) (i : Option PullPolicy),
      (q.SetPackagePullPolicy i).status = q.status ∧
      (q.SetPackagePullPolicy i).spec = { q.spec with packagePullPolicy := i }) ∧
    (∀ (q : ConfigurationRevision) (d : PackageRevisionDesiredState),
      (q.SetDesiredState d).status = q.status ∧
      (q.SetDesiredState d).spec = { q.spec with desiredState := d }) ∧
    (∀ (q : ConfigurationRevision) (r : Int), (q.SetRevision r).status = q.status ∧
      (q.SetRevision r).spec = { q.spec with revision := r }) ∧
    (∀ (q : ConfigurationRevision) (f i v : Int),
      (q.SetDependencyStatus f i v).spec = q.spec ∧
      (q.SetDependencyStatus f i v).status = { q.status with
        foundDependencies := f, installedDependencies := i,
        invalidDependencies := v }) ∧
    (∀ (q : ConfigurationRevision) (b : Option Bool),
      (q.SetIgnoreCrossplaneConstraints b).status = q.status ∧
      (q.SetIgnoreCrossplaneConstraints b).spec =
        { q.spec with ignoreCrossplaneConstraints := b }) ∧
    (∀ (q : ConfigurationRevision) (r : Option ControllerConfigReference),
      (q.SetControllerConfigRef r).status = q.status ∧
      (q.SetControllerConfigRef r).spec =
        { q.spec with controllerConfigReference := r }) ∧
    (∀ (q : ConfigurationRevision) (b : Option Bool),
      (q.SetSkipDependencyResolution b).status = q.status ∧
      (q.SetSkipDependencyResolution b).spec =
        { q.spec with skipDependencyResolution := b }) ∧
    (∀ (q : ConfigurationRevision) (n : Option String),
      (q.SetWebhookTLSSecretName n).status = q.status ∧
      (q.SetWebhookTLSSecretName n).spec = { q.spec with webhookTLSSecretName := n }) ∧
    (∀ (q : ConfigurationRevision) (s : Option String),
      (q.SetESSTLSSecretName s).status = q.status ∧
      (q.SetESSTLSSecretName s).spec = { q.spec with essTLSSecretName := s }) ∧
    (∀ (q : ConfigurationRevision) (s : Option String),
      (q.SetTLSServerSecretName s).status = q.status ∧
      (q.SetTLSServerSecretName s).spec = { q.spec with tlsServerSecretName := s }) ∧
    (∀ (q : ConfigurationRevision) (s : Option String),
      (q.SetTLSClientSecretName s).status = q.status ∧
      (q.SetTLSClientSecretName s).spec = { q.spec with tlsClientSecretName := s }) ∧
    (∀ (q : ConfigurationRevision) (l : List (String × String)),
      (q.SetCommonLabels l).status = q.status ∧
      (q.SetCommonLabels l).spec = { q.spec with commonLabels := l }) := by
  repeat' apply And.intro
  all_goals intros
  all_goals first
    | exact ⟨rfl, rfl⟩
    | rfl

end Crossplane
